import Mathlib

/-!
Verification of the job-completion watcher and monitoring-hook shims.

Shallow embedding of two Python modules:

* `airflow/providers/amazon/aws/triggers/batch.py` — the
  `BatchOperatorTrigger` class: construction parameters, `serialize`,
  and the async generator `run` that polls a waiter until the batch job
  completes, yielding `TriggerEvent` dictionaries.
* `airflow/providers/datadog/hooks/datadog.py` — the `DatadogHook`
  class: constructor credential checks, `validate_response`, and the
  three API-wrapping methods.

Conventions of the embedding:

* Each call to `waiter.wait(...)` either returns normally (the job
  reached the successful terminal state) or raises a `WaiterError`
  whose string representation and `last_response` job status we carry
  as strings.  The external waiter is injected as a function from the
  attempt number (1-based) to that result.
* The async generator `run` is embedded as a function returning a
  `RunTrace`: the list of yielded event dictionaries in order, the
  number of `waiter.wait` calls, the number of `asyncio.sleep` calls,
  and the final value of the `attempt` counter.
* Event dictionaries are association lists of string keys and string
  values, built exactly as the source builds them.
* The `while attempt < self.max_retries` loop is encoded by structural
  recursion on the fuel `max_retries - attempt`, which is exactly the
  number of remaining iterations the guard allows; the guard, counter
  increment, classification, and early exits mirror the source body.
-/

namespace BatchTrigger

/-- Result of one `waiter.wait` call: either the waiter returns (job in
the `SUCCEEDED` state) or it raises a `WaiterError`; `errText` is
`str(error)` and `lastJobStatus` is
`error.last_response["jobs"][0]["status"]` (used only for logging in
the source). -/
inductive WaitResult where
  | completed : WaitResult
  | waiterError (errText : String) (lastJobStatus : String) : WaitResult
deriving DecidableEq

/-- Auxiliary for the Python `in` test: does `hay` start with `needle`
(character lists)? -/
def charsStartWith : List Char → List Char → Bool
  | [], _ => true
  | _ :: _, [] => false
  | a :: as, b :: bs => a == b && charsStartWith as bs

/-- Auxiliary for the Python `in` test: does `hay` contain `needle` as
a contiguous run (character lists)? -/
def charsContain (needle : List Char) : List Char → Bool
  | [] => charsStartWith needle []
  | b :: bs => charsStartWith needle (b :: bs) || charsContain needle bs

/-- Python's substring test `needle in hay` on strings. -/
def containsSubstr (hay needle : String) : Bool :=
  charsContain needle.data hay.data

/-- A yielded `TriggerEvent` payload: an association list mirroring the
Python dict literal. -/
abbrev Event := List (String × String)

/-- The event `{"status": "success", "job_id": self.job_id}`. -/
def successEvent (job_id : String) : Event :=
  [("status", "success"), ("job_id", job_id)]

/-- The in-loop event
`{"status": "failure", "message": f"Delete Cluster Failed: \x7berror\x7d"}`. -/
def terminalFailureEvent (errText : String) : Event :=
  [("status", "failure"), ("message", "Delete Cluster Failed: " ++ errText)]

/-- The post-loop event
`{"status": "failure", "message": "Job Failed - max attempts reached."}`. -/
def maxAttemptsEvent : Event :=
  [("status", "failure"), ("message", "Job Failed - max attempts reached.")]

/-- Construction parameters of `BatchOperatorTrigger.__init__`.  The
`job_id` is modelled as a string (the spec's WatchRequest: an opaque
identifier string); `max_retries` and `poll_interval` as naturals. -/
structure BatchOperatorTrigger where
  job_id : String
  max_retries : Nat
  aws_conn_id : Option String
  region_name : Option String
  poll_interval : Nat
deriving DecidableEq

/-- Observable trace of one invocation of `run`: the yielded events in
order, the number of `waiter.wait` calls (query attempts), the number
of inter-attempt `asyncio.sleep` calls, and the final value of the
`attempt` counter after the loop. -/
structure RunTrace where
  events : List Event
  waitCalls : Nat
  sleeps : Nat
  finalAttempt : Nat
deriving DecidableEq

/-- Body of the `while attempt < self.max_retries` loop of
`BatchOperatorTrigger.run`, by structural recursion on the fuel
`max_retries - attempt` (the number of iterations the guard still
allows).  Each iteration increments `attempt`, issues one
`waiter.wait` call, and classifies the result exactly as the source:
normal return breaks out; a `WaiterError` whose text contains
`"terminal failure"` yields the in-loop failure event and breaks;
any other `WaiterError` sleeps and retries. -/
def runLoopFuel (t : BatchOperatorTrigger) (provider : Nat → WaitResult) :
    Nat → Nat → RunTrace
  | attempt, 0 => ⟨[], 0, 0, attempt⟩
  | attempt, fuel + 1 =>
    match provider (attempt + 1) with
    | .completed => ⟨[], 1, 0, attempt + 1⟩
    | .waiterError errText _ =>
      if containsSubstr errText "terminal failure" then
        ⟨[terminalFailureEvent errText], 1, 0, attempt + 1⟩
      else
        let rest := runLoopFuel t provider (attempt + 1) fuel
        ⟨rest.events, rest.waitCalls + 1, rest.sleeps + 1, rest.finalAttempt⟩

/-- The loop of `run` started at counter value `attempt`. -/
def runLoop (t : BatchOperatorTrigger) (provider : Nat → WaitResult)
    (attempt : Nat) : RunTrace :=
  runLoopFuel t provider attempt (t.max_retries - attempt)

/-- `BatchOperatorTrigger.run`: the loop from `attempt = 0`, followed by
the post-loop `if attempt >= self.max_retries` emission.  Note the
source generator always reaches the post-loop emission, also after an
in-loop `yield`/`break`. -/
def run (t : BatchOperatorTrigger) (provider : Nat → WaitResult) : RunTrace :=
  if (runLoop t provider 0).finalAttempt ≥ t.max_retries then
    { runLoop t provider 0 with
      events := (runLoop t provider 0).events ++ [maxAttemptsEvent] }
  else
    { runLoop t provider 0 with
      events := (runLoop t provider 0).events ++ [successEvent t.job_id] }

/-- A serialized field value of the trigger kwargs dict. -/
inductive FieldVal where
  | str (s : String)
  | nat (n : Nat)
  | optStr (o : Option String)
deriving DecidableEq

/-- `BatchOperatorTrigger.serialize`: classpath plus the kwargs dict. -/
def serialize (t : BatchOperatorTrigger) : String × List (String × FieldVal) :=
  ("airflow.providers.amazon.aws.triggers.batch.BatchOperatorTrigger",
   [("job_id", .str t.job_id),
    ("max_retries", .nat t.max_retries),
    ("aws_conn_id", .optStr t.aws_conn_id),
    ("region_name", .optStr t.region_name),
    ("poll_interval", .nat t.poll_interval)])

/-- Modelled from the spec: the host's trigger rehydration
`BatchOperatorTrigger(**kwargs)` — reconstruction of a trigger from a
serialized kwargs dict (the host's deserialization code is not under
`src/`; the spec requires serialization to be "sufficient to
reconstruct an equivalent WatchRequest"). -/
def triggerFromKwargs (kwargs : List (String × FieldVal)) :
    Option BatchOperatorTrigger :=
  match kwargs.lookup "job_id", kwargs.lookup "max_retries",
        kwargs.lookup "aws_conn_id", kwargs.lookup "region_name",
        kwargs.lookup "poll_interval" with
  | some (.str j), some (.nat m), some (.optStr a), some (.optStr r),
      some (.nat p) => some ⟨j, m, a, r, p⟩
  | _, _, _, _, _ => none

/-- The `BatchClientHook` constructed by the `hook` cached property:
determined entirely by the trigger's connection parameters. -/
structure BatchClientHook where
  aws_conn_id : Option String
  region_name : Option String
deriving DecidableEq

/-- The hook `BatchClientHook(aws_conn_id=..., region_name=...)`. -/
def mkHook (t : BatchOperatorTrigger) : BatchClientHook :=
  ⟨t.aws_conn_id, t.region_name⟩

/-- `functools.cached_property` semantics of `self.hook`: return the
cached value when present, otherwise compute it from the trigger. -/
def hookOf (t : BatchOperatorTrigger) (cache : Option BatchClientHook) :
    BatchClientHook :=
  cache.getD (mkHook t)

/-- One invocation of `run` together with the only mutable state the
trigger object carries: the `cached_property` hook slot.  The waiter
behaviour is injected as a function of the hook (the waiter is obtained
from `self.hook`), so a deterministic provider is a fixed function
here.  Returns the trace and the hook cache after the invocation. -/
def runStateful (t : BatchOperatorTrigger) (cache : Option BatchClientHook)
    (providerOf : BatchClientHook → Nat → WaitResult) :
    RunTrace × Option BatchClientHook :=
  let hook := hookOf t cache
  (run t (providerOf hook), some hook)

/-- Reachable states of the `cached_property` slot: empty, or holding
the hook computed from this trigger's own connection parameters. -/
def CacheWF (t : BatchOperatorTrigger) (cache : Option BatchClientHook) :
    Prop :=
  cache = none ∨ cache = some (mkHook t)

/-- Transient classification used by the source loop: a `WaiterError`
whose text does not contain `"terminal failure"` (a normal return is
not transient). -/
def isTransient : WaitResult → Bool
  | .completed => false
  | .waiterError errText _ => !(containsSubstr errText "terminal failure")

end BatchTrigger

namespace DatadogEmbed

/-- The connection record handed to `DatadogHook.__init__` by
`self.get_connection(datadog_conn_id)`: the `host` column and the
`extra_dejson` dictionary (string-valued entries suffice for the
fields the constructor reads). -/
structure Connection where
  host : Option String
  extra : List (String × String)
deriving DecidableEq

/-- `conn.extra_dejson.get(key, None)`. -/
def extraGet (conn : Connection) (key : String) : Option String :=
  conn.extra.lookup key

/-- Calls to the external monitoring SDK made during construction. -/
inductive DDApiCall where
  | initApi (api_key : String) (app_key : Option String)
      (api_host : Option String)
deriving DecidableEq

/-- The attribute state of a successfully constructed `DatadogHook`. -/
structure DatadogHookState where
  api_key : String
  app_key : Option String
  api_host : Option String
  source_type_name : Option String
  host : Option String
deriving DecidableEq

/-- `DatadogHook.__init__`: reads the four `extra_dejson` entries and
the connection host, raises `AirflowException` when `api_key` is
absent, and only on success calls `initialize(...)` on the SDK.
Returns the construction result paired with the list of SDK calls
performed. -/
def datadogHookInit (conn : Connection) :
    Except String DatadogHookState × List DDApiCall :=
  let api_key := extraGet conn "api_key"
  let app_key := extraGet conn "app_key"
  let api_host := extraGet conn "api_host"
  let source_type_name := extraGet conn "source_type_name"
  let host := conn.host
  match api_key with
  | none =>
    (.error "api_key must be specified in the Datadog connection details", [])
  | some k =>
    (.ok ⟨k, app_key, api_host, source_type_name, host⟩,
     [.initApi k app_key api_host])

/-- A value of a monitoring-API response dictionary: a string, or an
opaque non-string payload. -/
inductive RVal where
  | str (s : String)
  | raw (tag : Nat)
deriving DecidableEq

/-- A monitoring-API response dictionary. -/
abbrev Response := List (String × RVal)

/-- Exceptions the hook methods can raise. -/
inductive DDErr where
  | airflowException (msg : String)
  | keyError (key : String)
deriving DecidableEq

/-- Python subscript `response[key]`: the value, or a `KeyError`. -/
def getItem (r : Response) (key : String) : Except DDErr RVal :=
  match r.lookup key with
  | some v => .ok v
  | none => .error (.keyError key)

/-- `DatadogHook.validate_response`: raises `AirflowException` when
`response["status"] != "ok"`. -/
def validate_response (r : Response) : Except DDErr Unit :=
  match getItem r "status" with
  | .error e => .error e
  | .ok v =>
    if v ≠ RVal.str "ok" then
      .error (.airflowException "Error status received from Datadog")
    else
      .ok ()

/-- `DatadogHook.send_metric`: the external `api.Metric.send(...)` call
is abstracted as the injected `apiResponse`; the method validates it
and returns it unchanged. -/
def send_metric (apiResponse : Response) : Except DDErr Response :=
  match validate_response apiResponse with
  | .error e => .error e
  | .ok _ => .ok apiResponse

/-- `DatadogHook.query_metric`: the external `api.Metric.query(...)`
call is abstracted as the injected `apiResponse`; the method validates
it and returns it unchanged. -/
def query_metric (apiResponse : Response) : Except DDErr Response :=
  match validate_response apiResponse with
  | .error e => .error e
  | .ok _ => .ok apiResponse

/-- `DatadogHook.post_event`: the external `api.Event.create(...)` call
is abstracted as the injected `apiResponse`; the method validates it
and returns it unchanged. -/
def post_event (apiResponse : Response) : Except DDErr Response :=
  match validate_response apiResponse with
  | .error e => .error e
  | .ok _ => .ok apiResponse

end DatadogEmbed

namespace BatchTrigger

/-- Concrete trigger for the Claim C1 evaluation. -/
def c1Trigger : BatchOperatorTrigger := ⟨"job-7", 3, some "aws_default", none, 30⟩

/-- Concrete provider for the Claim C1 evaluation: terminal failure on
the first attempt. -/
def c1Provider : Nat → WaitResult :=
  fun _ => .waiterError "terminal failure: job killed" "FAILED"

/-- Concrete trigger for the Claim C2 evaluation: the spec's own
scenario `job_id="job-42"`, `max_attempts=3`. -/
def c2Trigger : BatchOperatorTrigger := ⟨"job-42", 3, some "aws_default", none, 30⟩

/-- Concrete provider for the Claim C2 evaluation: the spec's own
scenario sequence Pending, Pending, Succeeded. -/
def c2Provider : Nat → WaitResult :=
  fun i => if i < 3 then .waiterError "still pending" "RUNNABLE" else .completed

/-- Concrete trigger for the Claim C3 witness. -/
def c3wTrigger : BatchOperatorTrigger := ⟨"job-9", 3, some "aws_default", none, 10⟩

/-- Concrete provider for the Claim C3 witness: terminal failure on the
first attempt. -/
def c3wProvider : Nat → WaitResult :=
  fun _ => .waiterError "terminal failure: boom" "FAILED"

/-- Concrete trigger for the Claim C4 witness: `max_retries = 1`. -/
def c4wTrigger : BatchOperatorTrigger := ⟨"job-4", 1, none, none, 30⟩

/-- Concrete provider for the Claim C4 witness: always pending. -/
def c4wProvider : Nat → WaitResult :=
  fun _ => .waiterError "still pending" "RUNNABLE"

/-- Concrete trigger for the Claim C5 witness. -/
def c5wTrigger : BatchOperatorTrigger := ⟨"job-5", 2, none, none, 30⟩

/-- Concrete provider for the Claim C5 witness. -/
def c5wProvider : Nat → WaitResult :=
  fun _ => .waiterError "terminal failure: halted" "FAILED"

/-- Concrete trigger for the Claim C6 witness: `max_retries = 1` and a
job that completes on the first attempt. -/
def c6wTrigger : BatchOperatorTrigger := ⟨"job-6", 1, none, none, 30⟩

/-- Concrete provider for the Claim C6 witness. -/
def c6wProvider : Nat → WaitResult := fun _ => .completed

/-- Concrete trigger for the Claim C7 witness. -/
def c7wTrigger : BatchOperatorTrigger := ⟨"job-77", 2, some "aws_default", none, 15⟩

/-- Concrete hook-indexed provider for the Claim C7 witness. -/
def c7wProviderOf : BatchClientHook → Nat → WaitResult :=
  fun _ _ => .completed

end BatchTrigger

namespace DatadogEmbed

/-- Concrete connection without an `api_key` for the Claim C8 witness. -/
def c8wConnMissing : Connection := ⟨none, [("app_key", "a")]⟩

/-- Concrete connection with only an `api_key` for the Claim C8 witness. -/
def c8wConnMinimal : Connection := ⟨none, [("api_key", "K")]⟩

/-- Concrete ok response for the Claim C10 witness. -/
def c10wResp : Response := [("status", RVal.str "ok")]

end DatadogEmbed

section Sanity

open BatchTrigger

example :
    run ⟨"job-42", 4, some "aws_default", none, 30⟩
      (fun i => if i < 3 then .waiterError "still pending" "RUNNABLE"
                else .completed) =
      ⟨[successEvent "job-42"], 3, 2, 3⟩ := by decide

example :
    run ⟨"job-42", 3, some "aws_default", none, 30⟩
      (fun i => if i < 3 then .waiterError "still pending" "RUNNABLE"
                else .completed) =
      ⟨[maxAttemptsEvent], 3, 2, 3⟩ := by decide

example :
    run ⟨"j", 1, none, none, 5⟩ (fun _ => .completed) =
      ⟨[maxAttemptsEvent], 1, 0, 1⟩ := by decide

example :
    run ⟨"j", 3, none, none, 5⟩
      (fun _ => .waiterError "terminal failure: job killed" "FAILED") =
      ⟨[terminalFailureEvent "terminal failure: job killed", successEvent "j"],
       1, 0, 1⟩ := by decide

end Sanity

namespace BatchTrigger

lemma runLoop_stop (t : BatchOperatorTrigger) (p : Nat → WaitResult) (a : Nat)
    (h : t.max_retries ≤ a) : runLoop t p a = ⟨[], 0, 0, a⟩ := by
  unfold runLoop
  rw [Nat.sub_eq_zero_of_le h]
  rfl

lemma fuel_succ (t : BatchOperatorTrigger) (a : Nat) (h : a < t.max_retries) :
    t.max_retries - a = (t.max_retries - (a + 1)) + 1 := by omega

lemma runLoop_completed (t : BatchOperatorTrigger) (p : Nat → WaitResult)
    (a : Nat) (h : a < t.max_retries) (hp : p (a + 1) = .completed) :
    runLoop t p a = ⟨[], 1, 0, a + 1⟩ := by
  unfold runLoop
  rw [fuel_succ t a h]
  simp [runLoopFuel, hp]

lemma runLoop_terminal (t : BatchOperatorTrigger) (p : Nat → WaitResult)
    (a : Nat) (e ls : String) (h : a < t.max_retries)
    (hp : p (a + 1) = .waiterError e ls)
    (hterm : containsSubstr e "terminal failure" = true) :
    runLoop t p a = ⟨[terminalFailureEvent e], 1, 0, a + 1⟩ := by
  unfold runLoop
  rw [fuel_succ t a h]
  simp [runLoopFuel, hp, hterm]

lemma runLoop_transient_step (t : BatchOperatorTrigger) (p : Nat → WaitResult)
    (a : Nat) (e ls : String) (h : a < t.max_retries)
    (hp : p (a + 1) = .waiterError e ls)
    (hterm : containsSubstr e "terminal failure" = false) :
    runLoop t p a =
      ⟨(runLoop t p (a + 1)).events,
       (runLoop t p (a + 1)).waitCalls + 1,
       (runLoop t p (a + 1)).sleeps + 1,
       (runLoop t p (a + 1)).finalAttempt⟩ := by
  unfold runLoop
  rw [fuel_succ t a h]
  simp [runLoopFuel, hp, hterm]

lemma runLoop_skip (t : BatchOperatorTrigger) (p : Nat → WaitResult) :
    ∀ (n a b : Nat), n = b - a → a ≤ b → b ≤ t.max_retries →
      (∀ i, a < i → i ≤ b → isTransient (p i) = true) →
      runLoop t p a =
        ⟨(runLoop t p b).events,
         (runLoop t p b).waitCalls + (b - a),
         (runLoop t p b).sleeps + (b - a),
         (runLoop t p b).finalAttempt⟩ := by
  intro n
  induction n with
  | zero =>
    intro a b hn hab hb htr
    have hab2 : a = b := by omega
    subst hab2
    have hz : a - a = 0 := Nat.sub_self a
    rw [hz]
    rfl
  | succ m ih =>
    intro a b hn hab hb htr
    have hlt : a < b := by omega
    have htri : isTransient (p (a + 1)) = true := htr (a + 1) (by omega) (by omega)
    cases hp : p (a + 1) with
    | completed => rw [hp] at htri; simp [isTransient] at htri
    | waiterError e ls =>
      rw [hp] at htri
      have hterm : containsSubstr e "terminal failure" = false := by
        simpa [isTransient] using htri
      rw [runLoop_transient_step t p a e ls (by omega) hp hterm]
      rw [ih (a + 1) b (by omega) (by omega) hb (fun i h1 h2 => htr i (by omega) h2)]
      have h1 : (runLoop t p b).waitCalls + (b - (a + 1)) + 1 =
          (runLoop t p b).waitCalls + (b - a) := by omega
      have h2 : (runLoop t p b).sleeps + (b - (a + 1)) + 1 =
          (runLoop t p b).sleeps + (b - a) := by omega
      rw [h1, h2]

lemma runLoop_waitCalls_pos (t : BatchOperatorTrigger) (p : Nat → WaitResult)
    (a : Nat) (h : a < t.max_retries) : 1 ≤ (runLoop t p a).waitCalls := by
  unfold runLoop
  rw [fuel_succ t a h]
  cases hp : p (a + 1) with
  | completed => simp [runLoopFuel, hp]
  | waiterError e ls =>
    simp [runLoopFuel, hp]
    split
    · simp
    · simp

lemma run_of_ge (t : BatchOperatorTrigger) (p : Nat → WaitResult)
    (h : (runLoop t p 0).finalAttempt ≥ t.max_retries) :
    run t p =
      { runLoop t p 0 with
        events := (runLoop t p 0).events ++ [maxAttemptsEvent] } := by
  unfold run
  rw [if_pos h]

lemma run_of_lt (t : BatchOperatorTrigger) (p : Nat → WaitResult)
    (h : ¬ (runLoop t p 0).finalAttempt ≥ t.max_retries) :
    run t p =
      { runLoop t p 0 with
        events := (runLoop t p 0).events ++ [successEvent t.job_id] } := by
  unfold run
  rw [if_neg h]

lemma run_waitCalls (t : BatchOperatorTrigger) (p : Nat → WaitResult) :
    (run t p).waitCalls = (runLoop t p 0).waitCalls := by
  unfold run
  split <;> rfl

lemma run_sleeps (t : BatchOperatorTrigger) (p : Nat → WaitResult) :
    (run t p).sleeps = (runLoop t p 0).sleeps := by
  unfold run
  split <;> rfl

lemma run_events (t : BatchOperatorTrigger) (p : Nat → WaitResult) :
    ∃ post, (run t p).events = (runLoop t p 0).events ++ [post] ∧
      (post = maxAttemptsEvent ∨ post = successEvent t.job_id) := by
  unfold run
  split
  · exact ⟨maxAttemptsEvent, rfl, Or.inl rfl⟩
  · exact ⟨successEvent t.job_id, rfl, Or.inr rfl⟩

lemma charsStartWith_refl : ∀ l : List Char, charsStartWith l l = true
  | [] => rfl
  | a :: as => by simp [charsStartWith, charsStartWith_refl as]

lemma charsContain_of_startsWith (n h : List Char)
    (hs : charsStartWith n h = true) : charsContain n h = true := by
  cases h with
  | nil =>
    cases n with
    | nil => rfl
    | cons a as => simp [charsStartWith] at hs
  | cons b bs => simp [charsContain, hs]

lemma charsContain_append_left (n h : List Char) (hc : charsContain n h = true) :
    ∀ pre : List Char, charsContain n (pre ++ h) = true := by
  intro pre
  induction pre with
  | nil => simpa using hc
  | cons a as ih => simp [charsContain, ih]

lemma string_data_append (a b : String) : (a ++ b).data = a.data ++ b.data := rfl

lemma containsSubstr_append_right (pre suf needle : String)
    (hc : containsSubstr suf needle = true) :
    containsSubstr (pre ++ suf) needle = true := by
  unfold containsSubstr at hc ⊢
  rw [string_data_append]
  exact charsContain_append_left _ _ hc _

lemma containsSubstr_self (s : String) : containsSubstr s s = true := by
  unfold containsSubstr
  exact charsContain_of_startsWith _ _ (charsStartWith_refl _)

lemma runLoopFuel_events_shape (t : BatchOperatorTrigger) (p : Nat → WaitResult) :
    ∀ (fuel a : Nat) (ev : Event), ev ∈ (runLoopFuel t p a fuel).events →
      ∃ m, ev = [("status", "failure"), ("message", m)] := by
  intro fuel
  induction fuel with
  | zero =>
    intro a ev h
    simp [runLoopFuel] at h
  | succ f ih =>
    intro a ev h
    simp only [runLoopFuel] at h
    cases hp : p (a + 1) with
    | completed =>
      rw [hp] at h
      simp at h
    | waiterError e ls =>
      rw [hp] at h
      by_cases hterm : containsSubstr e "terminal failure" = true
      · simp [hterm, terminalFailureEvent] at h
        exact ⟨"Delete Cluster Failed: " ++ e, by simp [h]⟩
      · simp [hterm] at h
        exact ih (a + 1) ev h

/-- Claim C1: the claim states that one invocation of
`BatchOperatorTrigger.run` yields exactly one outcome event, and in
particular that a run emitting the in-loop terminal-failure event
emits nothing afterwards.  The generator violates this: after the
in-loop `yield`/`break`, control still reaches the post-loop emission.
On a terminal failure at attempt 1 of 3, the run yields the failure
event AND a second, success event. -/
theorem c1_terminal_failure_emits_second_event :
    (run c1Trigger c1Provider).events =
      [terminalFailureEvent "terminal failure: job killed",
       successEvent "job-7"] ∧
    (run c1Trigger c1Provider).events.length = 2 ∧
    (run c1Trigger c1Provider).waitCalls = 1 := by decide

/-- Claim C2: the claim states that success on attempt k = N (here the
spec's own scenario: `job-42`, `max_attempts = 3`, provider sequence
Pending, Pending, Succeeded) yields exactly k attempts and the success
event.  The code performs the 3 attempts but then takes the post-loop
`attempt >= max_retries` branch and emits the max-attempts failure
event instead of the success event. -/
theorem c2_success_on_last_attempt_misreported :
    (run c2Trigger c2Provider).waitCalls = 3 ∧
    (run c2Trigger c2Provider).events = [maxAttemptsEvent] ∧
    successEvent "job-42" ∉ (run c2Trigger c2Provider).events := by decide

/-- Claim C3: if the provider raises a `WaiterError` whose text contains
`"terminal failure"` on attempt k with 1 ≤ k ≤ max_retries, and all
earlier attempts were transient, then the watcher performs exactly k
wait calls (never issuing attempt k+1), and emits the in-loop failure
event, whose message contains both the substring `"terminal failure"`
and the provider's full error text. -/
theorem c3_terminal_failure_stops_at_k (t : BatchOperatorTrigger)
    (p : Nat → WaitResult) (k : Nat) (e ls : String)
    (hk1 : 1 ≤ k) (hkN : k ≤ t.max_retries)
    (htr : ∀ i, 1 ≤ i → i < k → isTransient (p i) = true)
    (hpk : p k = .waiterError e ls)
    (hterm : containsSubstr e "terminal failure" = true) :
    (run t p).waitCalls = k ∧
    terminalFailureEvent e ∈ (run t p).events ∧
    containsSubstr ("Delete Cluster Failed: " ++ e) "terminal failure" = true ∧
    containsSubstr ("Delete Cluster Failed: " ++ e) e = true := by
  obtain ⟨k0, rfl⟩ : ∃ k0, k = k0 + 1 := ⟨k - 1, by omega⟩
  have hskip := runLoop_skip t p k0 0 k0 (by omega) (by omega) (by omega)
    (fun i h1 h2 => htr i (by omega) (by omega))
  have hstep := runLoop_terminal t p k0 e ls (by omega) hpk hterm
  have h0 : runLoop t p 0 = ⟨[terminalFailureEvent e], 1 + k0, k0, k0 + 1⟩ := by
    rw [hskip, hstep]
    simp
  refine ⟨?_, ?_, ?_, ?_⟩
  · rw [run_waitCalls, h0]
    show 1 + k0 = k0 + 1
    omega
  · obtain ⟨post, hev, _⟩ := run_events t p
    rw [h0] at hev
    rw [hev]
    simp
  · exact containsSubstr_append_right _ _ _ hterm
  · exact containsSubstr_append_right _ _ _ (containsSubstr_self e)

/-- Claim C3 witness: terminal failure on attempt 1 of 3. -/
theorem c3_witness :
    (run c3wTrigger c3wProvider).waitCalls = 1 ∧
    terminalFailureEvent "terminal failure: boom" ∈
      (run c3wTrigger c3wProvider).events ∧
    containsSubstr ("Delete Cluster Failed: " ++ "terminal failure: boom")
      "terminal failure" = true ∧
    containsSubstr ("Delete Cluster Failed: " ++ "terminal failure: boom")
      "terminal failure: boom" = true :=
  c3_terminal_failure_stops_at_k c3wTrigger c3wProvider 1
    "terminal failure: boom" "FAILED" (by decide) (by decide)
    (fun i h1 h2 => by omega) rfl (by decide)

/-- Claim C4: if every attempt is transient (pending) and
`max_retries ≥ 1`, the watcher performs exactly `max_retries` wait
calls (sleeping after each) and then emits exactly the max-attempts
failure event, whose message contains `"max attempts reached"`. -/
theorem c4_pending_exhausts_all_attempts (t : BatchOperatorTrigger)
    (p : Nat → WaitResult) (hN : 1 ≤ t.max_retries)
    (htr : ∀ i, 1 ≤ i → i ≤ t.max_retries → isTransient (p i) = true) :
    (run t p).waitCalls = t.max_retries ∧
    (run t p).sleeps = t.max_retries ∧
    (run t p).events = [maxAttemptsEvent] ∧
    containsSubstr "Job Failed - max attempts reached."
      "max attempts reached" = true := by
  have hskip := runLoop_skip t p t.max_retries 0 t.max_retries (by omega)
      (by omega) le_rfl (fun i h1 h2 => htr i (by omega) h2)
  have hstop := runLoop_stop t p t.max_retries le_rfl
  have h0 : runLoop t p 0 =
      ⟨[], t.max_retries, t.max_retries, t.max_retries⟩ := by
    rw [hskip, hstop]
    simp
  have hge : (runLoop t p 0).finalAttempt ≥ t.max_retries := by
    rw [h0]
  refine ⟨?_, ?_, ?_, by decide⟩
  · rw [run_waitCalls, h0]
  · rw [run_sleeps, h0]
  · rw [run_of_ge t p hge, h0]
    rfl

/-- Claim C4 witness: `max_retries = 1`, always pending. -/
theorem c4_witness :
    (run c4wTrigger c4wProvider).waitCalls = c4wTrigger.max_retries ∧
    (run c4wTrigger c4wProvider).sleeps = c4wTrigger.max_retries ∧
    (run c4wTrigger c4wProvider).events = [maxAttemptsEvent] ∧
    containsSubstr "Job Failed - max attempts reached."
      "max attempts reached" = true :=
  c4_pending_exhausts_all_attempts c4wTrigger c4wProvider (by decide)
    (fun i h1 h2 => rfl)

/-- Claim C5: classification of a `WaiterError` is by substring match on
its text.  At any loop state `a < max_retries` where the provider
raises an error: if the text contains `"terminal failure"`, the loop
stops at attempt a+1 with the in-loop failure event and exactly one
further wait call; if it does not, the loop sleeps once and retries
(one more wait call before recursing), with at least a second wait
call whenever the attempt bound allows one. -/
theorem c5_substring_classification (t : BatchOperatorTrigger)
    (p : Nat → WaitResult) (a : Nat) (e ls : String)
    (ha : a < t.max_retries) (hp : p (a + 1) = .waiterError e ls) :
    (containsSubstr e "terminal failure" = true →
       runLoop t p a = ⟨[terminalFailureEvent e], 1, 0, a + 1⟩) ∧
    (containsSubstr e "terminal failure" = false →
       runLoop t p a =
         ⟨(runLoop t p (a + 1)).events,
          (runLoop t p (a + 1)).waitCalls + 1,
          (runLoop t p (a + 1)).sleeps + 1,
          (runLoop t p (a + 1)).finalAttempt⟩ ∧
       (a + 1 < t.max_retries → 2 ≤ (runLoop t p a).waitCalls)) := by
  constructor
  · intro hterm
    exact runLoop_terminal t p a e ls ha hp hterm
  · intro hterm
    have hstep := runLoop_transient_step t p a e ls ha hp hterm
    refine ⟨hstep, ?_⟩
    intro h2
    have hpos := runLoop_waitCalls_pos t p (a + 1) h2
    rw [hstep]
    show 2 ≤ (runLoop t p (a + 1)).waitCalls + 1
    omega

/-- Claim C5 witness: terminal-failure text at the first attempt of 2. -/
theorem c5_witness :
    (containsSubstr "terminal failure: halted" "terminal failure" = true →
       runLoop c5wTrigger c5wProvider 0 =
         ⟨[terminalFailureEvent "terminal failure: halted"], 1, 0, 0 + 1⟩) ∧
    (containsSubstr "terminal failure: halted" "terminal failure" = false →
       runLoop c5wTrigger c5wProvider 0 =
         ⟨(runLoop c5wTrigger c5wProvider (0 + 1)).events,
          (runLoop c5wTrigger c5wProvider (0 + 1)).waitCalls + 1,
          (runLoop c5wTrigger c5wProvider (0 + 1)).sleeps + 1,
          (runLoop c5wTrigger c5wProvider (0 + 1)).finalAttempt⟩ ∧
       (0 + 1 < c5wTrigger.max_retries →
          2 ≤ (runLoop c5wTrigger c5wProvider 0).waitCalls)) :=
  c5_substring_classification c5wTrigger c5wProvider 0
    "terminal failure: halted" "FAILED" (by decide) rfl

/-- Claim C6: every event the watcher yields has one of the two shapes:
exactly the fields status = success with a job_id, or status = failure
with a message. -/
theorem c6_event_shapes (t : BatchOperatorTrigger) (p : Nat → WaitResult)
    (ev : Event) (hev : ev ∈ (run t p).events) :
    (∃ j, ev = [("status", "success"), ("job_id", j)]) ∨
    (∃ m, ev = [("status", "failure"), ("message", m)]) := by
  obtain ⟨post, heq, hpost⟩ := run_events t p
  rw [heq] at hev
  rcases List.mem_append.mp hev with hmem | hmem
  · right
    exact runLoopFuel_events_shape t p (t.max_retries - 0) 0 ev hmem
  · have hevp : ev = post := by simpa using hmem
    subst hevp
    rcases hpost with h | h
    · right
      exact ⟨"Job Failed - max attempts reached.", by rw [h]; rfl⟩
    · left
      exact ⟨t.job_id, by rw [h]; rfl⟩

/-- Claim C6 witness: the event yielded by a one-attempt run. -/
theorem c6_witness :
    (∃ j, maxAttemptsEvent = [("status", "success"), ("job_id", j)]) ∨
    (∃ m, maxAttemptsEvent = [("status", "failure"), ("message", m)]) :=
  c6_event_shapes c6wTrigger c6wProvider maxAttemptsEvent (by decide)

/-- Claim C7: re-running the watcher with the same trigger and a
deterministic (hook-indexed) provider produces the identical trace; the
only mutable state the trigger carries — the `cached_property` hook
slot — does not change the result between invocations. -/
theorem c7_rerun_identical (t : BatchOperatorTrigger)
    (providerOf : BatchClientHook → Nat → WaitResult)
    (cache : Option BatchClientHook) (hwf : CacheWF t cache) :
    (runStateful t (runStateful t cache providerOf).2 providerOf).1 =
      (runStateful t cache providerOf).1 ∧
    CacheWF t (runStateful t cache providerOf).2 := by
  rcases hwf with h | h <;> subst h <;> exact ⟨rfl, Or.inr rfl⟩

/-- Claim C7 witness: a fresh trigger (empty hook cache). -/
theorem c7_witness :
    (runStateful c7wTrigger (runStateful c7wTrigger none c7wProviderOf).2
        c7wProviderOf).1 =
      (runStateful c7wTrigger none c7wProviderOf).1 ∧
    CacheWF c7wTrigger (runStateful c7wTrigger none c7wProviderOf).2 :=
  c7_rerun_identical c7wTrigger c7wProviderOf none (Or.inl rfl)

/-- Claim C9: `serialize` returns the classpath together with exactly
the five kwargs, each equal to the construction value, and
reconstructing a trigger from the serialized kwargs yields the
identical instance. -/
theorem c9_serialize_roundtrip (t : BatchOperatorTrigger) :
    (serialize t).1 =
      "airflow.providers.amazon.aws.triggers.batch.BatchOperatorTrigger" ∧
    (serialize t).2.map Prod.fst =
      ["job_id", "max_retries", "aws_conn_id", "region_name",
       "poll_interval"] ∧
    (serialize t).2.lookup "job_id" = some (.str t.job_id) ∧
    (serialize t).2.lookup "max_retries" = some (.nat t.max_retries) ∧
    (serialize t).2.lookup "aws_conn_id" = some (.optStr t.aws_conn_id) ∧
    (serialize t).2.lookup "region_name" = some (.optStr t.region_name) ∧
    (serialize t).2.lookup "poll_interval" = some (.nat t.poll_interval) ∧
    triggerFromKwargs (serialize t).2 = some t := by
  refine ⟨rfl, rfl, rfl, rfl, rfl, rfl, rfl, ?_⟩
  cases t
  rfl

end BatchTrigger

namespace DatadogEmbed

/-- Claim C8: constructing the hook from connection details lacking an
`api_key` raises the `AirflowException` from the constructor itself,
with no SDK call performed; with an `api_key` present, construction
succeeds (whatever the other extras, absent or not) and performs
exactly the `initialize` SDK call. -/
theorem c8_eager_credential_check (conn : Connection) :
    (extraGet conn "api_key" = none →
       datadogHookInit conn =
         (.error "api_key must be specified in the Datadog connection details",
          [])) ∧
    (∀ k, extraGet conn "api_key" = some k →
       datadogHookInit conn =
         (.ok ⟨k, extraGet conn "app_key", extraGet conn "api_host",
               extraGet conn "source_type_name", conn.host⟩,
          [.initApi k (extraGet conn "app_key") (extraGet conn "api_host")])) := by
  constructor
  · intro h
    simp [datadogHookInit, h]
  · intro k h
    simp [datadogHookInit, h]

/-- Claim C8 witness: a connection without `api_key` errors with no SDK
call; a connection with only `api_key` constructs successfully. -/
theorem c8_witness :
    (datadogHookInit c8wConnMissing =
      (.error "api_key must be specified in the Datadog connection details",
       [])) ∧
    (datadogHookInit c8wConnMinimal =
      (.ok ⟨"K", none, none, none, none⟩, [.initApi "K" none none])) :=
  ⟨(c8_eager_credential_check c8wConnMissing).1 (by decide),
   (c8_eager_credential_check c8wConnMinimal).2 "K" (by decide)⟩

/-- Claim C10: `validate_response` raises the `AirflowException` exactly
when the response's status value differs from `"ok"`; consequently each
of `send_metric`, `query_metric` and `post_event` returns the
provider's response unchanged when its status is `"ok"` and raises
otherwise, never returning a non-ok response. -/
theorem c10_validate_and_wrappers (r : Response) (v : RVal)
    (hv : r.lookup "status" = some v) :
    ((validate_response r =
        .error (.airflowException "Error status received from Datadog")) ↔
      v ≠ RVal.str "ok") ∧
    (validate_response r = .ok () ↔ v = RVal.str "ok") ∧
    (v = RVal.str "ok" →
      send_metric r = .ok r ∧ query_metric r = .ok r ∧ post_event r = .ok r) ∧
    (∀ r2, send_metric r = .ok r2 → r2 = r ∧ v = RVal.str "ok") ∧
    (∀ r2, query_metric r = .ok r2 → r2 = r ∧ v = RVal.str "ok") ∧
    (∀ r2, post_event r = .ok r2 → r2 = r ∧ v = RVal.str "ok") := by
  have hget : getItem r "status" = .ok v := by simp [getItem, hv]
  by_cases hok : v = RVal.str "ok"
  · subst hok
    have hval : validate_response r = .ok () := by
      simp [validate_response, hget]
    refine ⟨?_, ?_, ?_, ?_, ?_, ?_⟩ <;>
      simp [hval, send_metric, query_metric, post_event]
  · have hval : validate_response r =
        .error (.airflowException "Error status received from Datadog") := by
      simp [validate_response, hget, hok]
    refine ⟨?_, ?_, ?_, ?_, ?_, ?_⟩ <;>
      simp [hval, hok, send_metric, query_metric, post_event]

/-- Claim C10 witness: an ok response passes validation and is returned
unchanged by all three wrappers. -/
theorem c10_witness :
    ((validate_response c10wResp =
        .error (.airflowException "Error status received from Datadog")) ↔
      RVal.str "ok" ≠ RVal.str "ok") ∧
    (validate_response c10wResp = .ok () ↔ RVal.str "ok" = RVal.str "ok") ∧
    (RVal.str "ok" = RVal.str "ok" →
      send_metric c10wResp = .ok c10wResp ∧
      query_metric c10wResp = .ok c10wResp ∧
      post_event c10wResp = .ok c10wResp) ∧
    (∀ r2, send_metric c10wResp = .ok r2 →
      r2 = c10wResp ∧ RVal.str "ok" = RVal.str "ok") ∧
    (∀ r2, query_metric c10wResp = .ok r2 →
      r2 = c10wResp ∧ RVal.str "ok" = RVal.str "ok") ∧
    (∀ r2, post_event c10wResp = .ok r2 →
      r2 = c10wResp ∧ RVal.str "ok" = RVal.str "ok") :=
  c10_validate_and_wrappers c10wResp (RVal.str "ok") (by decide)

end DatadogEmbed
